import Mathlib

/-!
Verification development for the gamma-ortho product-catalog backend.

The definitions below are a shallow embedding of the product write path:
the admin routes (`routes/adminProductRoutes.js`), the product schema
(`models/Product.js`) and the GCS image service with its delete helper
(`services/imageUploadService.js`, revision carrying `deleteFileFromGCS`).

Conventions of the embedding:
* JavaScript numbers produced by `parseFloat` are modelled by `JSFloat`
  (`nan`, signed infinities, and finite rationals); machine doubles are
  idealised as exact rationals, which is faithful for every comparison
  the code performs (`isNaN`, truthiness, `min`/`max` validators).
* Multipart form fields are strings; an absent field is `Option.none`.
* Remote storage is a capability `StorageModel`: an initialisation flag,
  the bucket name, and oracles giving the outcome of each upload/delete
  network call.  Handlers record the storage calls they issue as a trace
  of `Event`s, in program order (the code `await`s sequentially).
* Mongoose behaviour modelled: setters (`trim`, `lowercase`) run before
  validators; `save` and `findByIdAndUpdate` with `runValidators` check
  the schema validators (on the `$set` paths for updates); `timestamps`
  maintain `createdAt`/`updatedAt`.
-/

/-- JavaScript whitespace as matched by `\s` / skipped by `parseFloat`
(space, tab, LF, CR, vertical tab, form feed). -/
def isJsWS (c : Char) : Bool :=
  c = ' ' || c = '\t' || c = '\n' || c = '\r' || c = '\x0b' || c = '\x0c'

/-- ASCII lowering of one character (the `toLowerCase` the code relies on;
every string this backend compares is ASCII). -/
def lowerChar (c : Char) : Char :=
  if 'A' ≤ c && c ≤ 'Z' then Char.ofNat (c.toNat + 32) else c

/-- JavaScript `.toLowerCase()`. -/
def jsToLower (s : String) : String :=
  String.mk (s.toList.map lowerChar)

/-- JavaScript `.trim()`: strip leading and trailing whitespace. -/
def jsTrim (s : String) : String :=
  String.mk (((s.toList.dropWhile isJsWS).reverse.dropWhile isJsWS).reverse)

/-- Character-list core of `.startsWith` (second argument is the tested pre-part). -/
def listStartsWith : List Char → List Char → Bool
  | _, [] => true
  | [], _ :: _ => false
  | c :: cs, d :: ds => c = d && listStartsWith cs ds

/-- JavaScript `s.startsWith(p)`. -/
def jsStartsWith (s p : String) : Bool :=
  listStartsWith s.toList p.toList

/-- JavaScript `s.substring(n)` (ASCII strings, so index = char count). -/
def jsSubstring (s : String) (n : ℕ) : String :=
  String.mk (s.toList.drop n)

/-- Result of JavaScript `parseFloat`: NaN, an infinity, or a finite
number (idealised as an exact rational). -/
inductive JSFloat
  | nan
  | inf
  | neginf
  | fin (q : ℚ)
deriving DecidableEq, Repr

/-- JavaScript `isNaN` on a `parseFloat` result. -/
def JSFloat.isNaNB : JSFloat → Bool
  | .nan => true
  | _ => false

/-- JavaScript truthiness of a number: `NaN` and `0` are falsy. -/
def JSFloat.truthy : JSFloat → Bool
  | .nan => false
  | .fin q => decide (q ≠ 0)
  | _ => true

/-- `x >= 0` with JavaScript comparison semantics (`NaN >= 0` is false). -/
def JSFloat.ge0 : JSFloat → Bool
  | .fin q => decide (0 ≤ q)
  | .inf => true
  | _ => false

/-- `x <= 1` with JavaScript comparison semantics (`NaN <= 1` is false). -/
def JSFloat.le1 : JSFloat → Bool
  | .fin q => decide (q ≤ 1)
  | .neginf => true
  | _ => false

/-- Numeric value of a list of decimal digit characters. -/
def digsVal (cs : List Char) : ℕ :=
  cs.foldl (fun a c => 10 * a + (c.toNat - 48)) 0

/-- Exponent part of a `parseFloat` literal, given the characters after
`e`/`E`.  An exponent with no digits does not count (JS keeps the longest
valid prefix, so `"1e"` parses as `1`, exponent `0`). -/
def parseExpPart (cs : List Char) : ℤ :=
  let sgnRest : ℤ × List Char :=
    match cs with
    | '+' :: r => (1, r)
    | '-' :: r => (-1, r)
    | r => (1, r)
  let ds := sgnRest.2.takeWhile Char.isDigit
  if ds = [] then 0 else sgnRest.1 * (digsVal ds : ℤ)

/-- Magnitude part of `parseFloat` after the optional sign: `Infinity`,
or `digits [. digits] [e/E exp]`; no digits at all gives `NaN`. -/
def parseMag (neg : Bool) (cs : List Char) : JSFloat :=
  if cs.take 8 = "Infinity".toList then
    if neg then .neginf else .inf
  else
    let ip := cs.takeWhile Char.isDigit
    let r1 := cs.drop ip.length
    let fr : List Char × List Char :=
      match r1 with
      | '.' :: r => (r.takeWhile Char.isDigit, r.drop (r.takeWhile Char.isDigit).length)
      | _ => ([], r1)
    if ip = [] && fr.1 = [] then .nan
    else
      let e : ℤ :=
        match fr.2 with
        | 'e' :: r => parseExpPart r
        | 'E' :: r => parseExpPart r
        | _ => 0
      let num0 : ℤ := (digsVal ip * 10 ^ fr.1.length + digsVal fr.1 : ℕ)
      let mag : ℚ :=
        if 0 ≤ e then mkRat (num0 * (10 : ℤ) ^ e.toNat) (10 ^ fr.1.length)
        else mkRat num0 (10 ^ fr.1.length * 10 ^ (-e).toNat)
      .fin (if neg then -mag else mag)

/-- JavaScript `parseFloat` on a string: skip leading whitespace, optional
sign, then the longest valid numeric prefix. -/
def parseFloatJS (s : String) : JSFloat :=
  match s.toList.dropWhile isJsWS with
  | '+' :: r => parseMag false r
  | '-' :: r => parseMag true r
  | r => parseMag false r

/-- `parseFloat` applied to a possibly-absent form field
(`parseFloat(undefined)` is `NaN`). -/
def parseFloatOpt : Option String → JSFloat
  | none => .nan
  | some s => parseFloatJS s

/-- Collapse every run of whitespace to a single `'-'`; the `prev` flag
records whether the previous character belonged to a whitespace run.
Implements `.replace(/\s+/g, '-')`. -/
def collapseWSAux : Bool → List Char → List Char
  | _, [] => []
  | prev, c :: cs =>
    if isJsWS c then
      if prev then collapseWSAux true cs else '-' :: collapseWSAux true cs
    else c :: collapseWSAux false cs

/-- The free-text product-type slug: `.trim().toLowerCase().replace(/\s+/g, '-')`. -/
def slugify (t : String) : String :=
  String.mk (collapseWSAux false (jsToLower (jsTrim t)).toList)

/-- JS truthiness of an optional string field (`undefined` and `""` are falsy). -/
def optTruthy : Option String → Bool
  | none => false
  | some s => s ≠ ""

/-- A priced dimension sub-document (`dimensionSchema`); the optional
`dimensionSKU` is never set by any route and is omitted. -/
structure Dimension where
  dimensionName : String
  basePrice : JSFloat
deriving DecidableEq, Repr

/-- A persisted product document (`productSchema`), with the mongoose
timestamps made explicit. -/
structure Product where
  name : String
  description : String
  productType : String
  baseImageURL : Option String
  additionalImageURLs : List String
  dimensions : List Dimension
  gstRate : JSFloat
  isActive : Bool
  createdAt : ℕ
  updatedAt : ℕ
deriving DecidableEq, Repr

/-- The `enum` values of `productSchema.productType`. -/
def productTypeEnum : List String :=
  ["wire-pin", "ao-fixator", "jess-fixator", "ring-fixator", "rail-fixator", "other"]

/-- One raw submitted dimension row: both fields arrive as form strings
and either may be absent. -/
structure RawDim where
  dimensionName : Option String
  basePrice : Option String
deriving DecidableEq, Repr

/-- Outcome of one GCS upload network call (promise resolution). -/
inductive UpRes
  | okU (url : String)
  | errU (msg : String)
deriving DecidableEq, Repr

/-- Outcome of one remote `bucket.file(name).delete()` call. -/
inductive GcsDeleteRes
  | success
  | missing
  | failure (msg : String)
deriving DecidableEq, Repr

/-- Resolution of a `Promise<void>` (used by `deleteFileFromGCS`). -/
inductive PromiseU
  | resolvedU
  | rejectedU (msg : String)
deriving DecidableEq, Repr

/-- The storage capability: the `isGCSInitialized` flag and bucket name of
`imageUploadService.js`, plus oracles for the outcomes of the network calls. -/
structure StorageModel where
  isGCSInitialized : Bool
  bucketName : String
  uploadResult : String → String → UpRes
  rawDelete : String → GcsDeleteRes

/-- The public-URL part before the object name:
`https://storage.googleapis.com/{bucket}/`. -/
def gcsUrlBase (g : StorageModel) : String :=
  "https://storage.googleapis.com/" ++ g.bucketName ++ "/"

/-- `deleteFileFromGCS` (imageUploadService revision that exports it).
Returns the promise outcome together with the object names actually
passed to a remote delete call (`[]` means no remote call was issued). -/
def deleteFileFromGCS (g : StorageModel) (fileUrl : Option String) :
    PromiseU × List String :=
  if ¬ g.isGCSInitialized then
    (.rejectedU "Image Storage Service (GCS) is not properly initialized.", [])
  else
    match fileUrl with
    | none => (.resolvedU, [])
    | some u =>
      if u = "" then (.resolvedU, [])
      else
        if ¬ jsStartsWith u (gcsUrlBase g) then (.resolvedU, [])
        else
          let objectName := jsSubstring u (gcsUrlBase g).length
          if objectName = "" then (.resolvedU, [])
          else
            match g.rawDelete objectName with
            | .success => (.resolvedU, [objectName])
            | .missing => (.resolvedU, [objectName])
            | .failure m => (.rejectedU m, [objectName])

/-- Upload-folder constant used for the base image. -/
def baseFolder : String := "gamma_ortho_products/base_images/"

/-- Upload-folder constant used for the additional images. -/
def addFolder : String := "gamma_ortho_products/additional_images/"

deriving instance DecidableEq for Except

/-- Error responses of the admin routes, tagged by HTTP status family. -/
inductive ErrResp
  | badRequest (msg : String)
  | unavailable (msg : String)
  | notFoundE (msg : String)
  | serverError (msg : String)
deriving DecidableEq, Repr

/-- A create request (`POST /api/admin/products`) after multer: text form
fields as optional strings, files as their original filenames. -/
structure CreateReq where
  name : Option String
  description : Option String
  productTypeSelect : Option String
  newProductType : Option String
  dimensions : Option (List RawDim)
  gstRate : Option String
  isActive : Option String
  baseImage : Option String
  additionalImages : List String
deriving Repr

/-- One create-loop iteration: an entry is pushed iff
`dimName && dimName.trim() !== ""` and
`dimPrice !== undefined && String(dimPrice).trim() !== "" && !isNaN(parseFloat(dimPrice))`;
otherwise it is skipped.  Shared verbatim by the PUT `.map(...).filter(...)` parse. -/
def parseDimEntry (r : RawDim) : Option Dimension :=
  let nameOk : Bool :=
    match r.dimensionName with
    | some s => s ≠ "" && jsTrim s ≠ ""
    | none => false
  let priceOk : Bool :=
    match r.basePrice with
    | some p => jsTrim p ≠ "" && ¬ (parseFloatJS p).isNaNB
    | none => false
  if nameOk && priceOk then
    some ⟨jsTrim (r.dimensionName.getD ""), parseFloatJS (r.basePrice.getD "")⟩
  else none

/-- The create route's dimension parsing loop over `req.body.dimensions`
(a missing or non-array field yields no parsed dimensions). -/
def parseDimensions : Option (List RawDim) → List Dimension
  | some l => l.filterMap parseDimEntry
  | none => []

/-- `finalProductType` resolution of the create route: lowercase-trim the
selection; the sentinel `other` requires a non-empty free-text
`newProductType`, which is slugified. -/
def resolveProductType (pts npt : Option String) : Except ErrResp String :=
  match pts with
  | none => .error (.badRequest "Product type selection is required.")
  | some s =>
    if s = "" || jsTrim s = "" then .error (.badRequest "Product type selection is required.")
    else
      let fpt := jsToLower (jsTrim s)
      if fpt = "other" then
        match npt with
        | none => .error (.badRequest "Please specify the new product type when Other is selected.")
        | some t =>
          if t = "" || jsTrim t = "" then
            .error (.badRequest "Please specify the new product type when Other is selected.")
          else .ok (slugify t)
      else .ok fpt

/-- The document the create route assembles and passes to `new Product(...)`. -/
structure NewProductData where
  name : Option String
  description : Option String
  productType : String
  baseImageURL : Option String
  additionalImageURLs : List String
  dimensions : List Dimension
  gstRate : JSFloat
  isActive : Bool
deriving Repr

/-- Schema validity of a stored dimension, checked after the `trim`
setter: `dimensionName` required non-empty, `basePrice` with `min: 0`. -/
def dimSchemaOk (d : Dimension) : Bool :=
  d.dimensionName ≠ "" && d.basePrice.ge0

/-- The `trim` setter of the dimension sub-schema. -/
def trimDim (d : Dimension) : Dimension :=
  { d with dimensionName := jsTrim d.dimensionName }

/-- The schema validators of `productSchema`, run on the values the
setters (`trim`, `lowercase`) produce: required non-empty `name`,
`description` and `productType`; the `productType` enum; a non-empty
`dimensions` array whose entries each pass the sub-schema; `gstRate`
within `[0, 1]`. -/
def saveOk (nd : NewProductData) : Bool :=
  (match nd.name.map jsTrim with | some n => n ≠ "" | none => false) &&
  (match nd.description.map jsTrim with | some d => d ≠ "" | none => false) &&
  jsToLower (jsTrim nd.productType) ≠ "" &&
  productTypeEnum.contains (jsToLower (jsTrim nd.productType)) &&
  (nd.dimensions.map trimDim).length ≠ 0 &&
  (nd.dimensions.map trimDim).all dimSchemaOk &&
  (nd.gstRate.ge0 && nd.gstRate.le1)

/-- Message of the first failing schema validator, in schema order. -/
def saveErrMsg (nd : NewProductData) : String :=
  match nd.name.map jsTrim with
  | none => "Product name is required."
  | some n =>
    if n = "" then "Product name is required."
    else
      match nd.description.map jsTrim with
      | none => "Product description is required."
      | some dsc =>
        if dsc = "" then "Product description is required."
        else if jsToLower (jsTrim nd.productType) = "" then "Product type is required."
        else if ¬ productTypeEnum.contains (jsToLower (jsTrim nd.productType)) then
          jsToLower (jsTrim nd.productType) ++ " is not a supported product type."
        else if (nd.dimensions.map trimDim).length = 0 then
          "Product must have at least one dimension."
        else if ¬ (nd.dimensions.map trimDim).all dimSchemaOk then
          "Dimension name and a non-negative price are required."
        else "GST rate must be between 0 and 1."

/-- The document as stored once validation passes: every setter applied,
timestamps attached. -/
def assembleSaved (now : ℕ) (nd : NewProductData) : Product :=
  { name := jsTrim (nd.name.getD "")
    description := jsTrim (nd.description.getD "")
    productType := jsToLower (jsTrim nd.productType)
    baseImageURL := nd.baseImageURL.map jsTrim
    additionalImageURLs := nd.additionalImageURLs.map jsTrim
    dimensions := nd.dimensions.map trimDim
    gstRate := nd.gstRate
    isActive := nd.isActive
    createdAt := now
    updatedAt := now }

/-- `new Product(data).save()`: mongoose applies the setters, runs the
validators, and persists with timestamps; a failing validator raises a
`ValidationError`. -/
def saveProduct (now : ℕ) (nd : NewProductData) : Except String Product :=
  if saveOk nd then .ok (assembleSaved now nd) else .error (saveErrMsg nd)

/-- `Promise.all` over the additional-image uploads: all calls are issued;
the combined promise rejects if any upload rejects. -/
def collectUploads (g : StorageModel) (folder : String) : List String → Except String (List String)
  | [] => .ok []
  | f :: fs =>
    match g.uploadResult f folder with
    | .errU e => .error e
    | .okU u =>
      match collectUploads g folder fs with
      | .error e => .error e
      | .ok us => .ok (u :: us)

/-- The upload phase of the create handler: the base image first (if
any), then the additional images under `Promise.all`; the first rejection
aborts the phase. -/
def uploadsStage (g : StorageModel) (req : CreateReq) :
    Except String (Option String × List String) :=
  match req.baseImage with
  | none =>
    match collectUploads g addFolder req.additionalImages with
    | .error e => .error e
    | .ok urls => .ok (none, urls)
  | some f =>
    match g.uploadResult f baseFolder with
    | .errU e => .error e
    | .okU url =>
      match collectUploads g addFolder req.additionalImages with
      | .error e => .error e
      | .ok urls => .ok (some url, urls)

/-- The `newProductData` object the create route assembles: `isActive` is
coerced from the form string (`=== 'true'`) and `gstRate` applies the
`parseFloat(x) || 0.12` fallback. -/
def newProductDataOf (req : CreateReq) (fpt : String) (burl : Option String)
    (aurls : List String) : NewProductData :=
  { name := req.name
    description := req.description
    productType := fpt
    baseImageURL := burl
    additionalImageURLs := aurls
    dimensions := parseDimensions req.dimensions
    gstRate :=
      if (parseFloatOpt req.gstRate).truthy then parseFloatOpt req.gstRate
      else .fin (mkRat 12 100)
    isActive := req.isActive = some "true" }

/-- The create handler (`router.post('/')`): 503 when files are present
but GCS is uninitialised; required-field checks; product-type resolution;
the dimension parsing loop with its zero-valid-dimensions 400; the
uploads; assembly of `newProductData`; `save`. -/
def createProduct (g : StorageModel) (now : ℕ) (req : CreateReq) : Except ErrResp Product :=
  if (req.baseImage.isSome || req.additionalImages ≠ []) && ¬ g.isGCSInitialized then
    .error (.unavailable "Image Storage Service (GCS) is not properly initialized on the server.")
  else if (match req.name with | none => true | some s => s = "" || jsTrim s = "") then
    .error (.badRequest "Product name is required.")
  else
    match resolveProductType req.productTypeSelect req.newProductType with
    | .error e => .error e
    | .ok finalProductType =>
      if (parseDimensions req.dimensions).length = 0 then
        .error (.badRequest "At least one complete and valid dimension (name and price) is required.")
      else
        match uploadsStage g req with
        | .error e => .error (.serverError e)
        | .ok (baseImageURL, additionalImageURLs) =>
          match saveProduct now (newProductDataOf req finalProductType baseImageURL additionalImageURLs) with
          | .error m => .error (.badRequest m)
          | .ok p => .ok p

/-- Value of `req.body.baseImageURL` when the key is present: `null` or a
string (the clear sentinels are `''`, `null` and `"null"`). -/
inductive BaseUrlField
  | jnull
  | jstr (s : String)
deriving DecidableEq, Repr

/-- Value of `req.body.additionalImageURLs` when the key is present:
`null`, a string, or an array of strings. -/
inductive AddUrlsField
  | anull
  | astr (s : String)
  | aarr (l : List String)
deriving DecidableEq, Repr

/-- An update request (`PUT /api/admin/products/:id`) after multer. -/
structure UpdateReq where
  name : Option String
  description : Option String
  productTypeSelect : Option String
  newProductType : Option String
  gstRate : Option String
  isActive : Option String
  dimensions : Option (List RawDim)
  baseImageURL : Option BaseUrlField
  additionalImageURLs : Option AddUrlsField
  baseImage : Option String
  additionalImages : List String
deriving Repr

/-- The `updateData` object the PUT handler builds; a `none` field is not
part of the `$set` and leaves the stored value unchanged. -/
structure UpdateData where
  name : Option String := none
  description : Option String := none
  productType : Option String := none
  gstRate : Option JSFloat := none
  isActive : Option Bool := none
  dimensions : Option (List Dimension) := none
  baseImageURL : Option (Option String) := none
  additionalImageURLs : Option (List String) := none
deriving DecidableEq, Repr

/-- `Object.keys(updateData).length === 0`. -/
def UpdateData.isEmpty (u : UpdateData) : Bool :=
  u.name.isNone && u.description.isNone && u.productType.isNone && u.gstRate.isNone &&
    u.isActive.isNone && u.dimensions.isNone && u.baseImageURL.isNone &&
    u.additionalImageURLs.isNone

/-- PUT product-type resolution: a truthy `productTypeSelect` is
lowercase-trimmed; the sentinel `other` demands a truthy free text whose
slug is non-empty. `.ok none` means the field is left out of the update. -/
def resolveUpdateType (pts npt : Option String) : Except ErrResp (Option String) :=
  match pts with
  | none => .ok none
  | some s =>
    if s = "" then .ok none
    else
      if jsToLower (jsTrim s) = "other" then
        let slug := match npt with
          | some t => if t = "" then "" else slugify t
          | none => ""
        if slug = "" then
          .error (.badRequest "New product type cannot be empty if Other is selected for update.")
        else .ok (some slug)
      else .ok (some (jsToLower (jsTrim s)))

/-- The text-field part of the PUT handler: copy present `name` /
`description`, resolve the product type, coerce `gstRate` and `isActive`,
and run the update dimension parse with its two guards. -/
def buildTextUpdate (req : UpdateReq) : Except ErrResp UpdateData :=
  let u : UpdateData := {}
  let u := match req.name with | some s => { u with name := some s } | none => u
  let u := match req.description with | some s => { u with description := some s } | none => u
  match resolveUpdateType req.productTypeSelect req.newProductType with
  | .error e => .error e
  | .ok pt =>
    let u := match pt with | some t => { u with productType := some t } | none => u
    let u := match req.gstRate with
      | some s => { u with gstRate := some (parseFloatJS s) }
      | none => u
    let u := match req.isActive with
      | some s => { u with isActive := some (jsToLower s = "true") }
      | none => u
    match req.dimensions with
    | none => .ok u
    | some l =>
      let tempParsedDimensions := l.filterMap parseDimEntry
      if l.length > 0 && tempParsedDimensions.length = 0 then
        .error (.badRequest "Provided dimensions array was empty or contained only invalid data.")
      else if tempParsedDimensions.length > 0 || l.length = 0 then
        .ok { u with dimensions := some tempParsedDimensions }
      else .ok u

/-- Trace of storage and repository side effects, in program order. -/
inductive Event
  | gcsDeleteEvt (url : String) (outcome : PromiseU)
  | gcsUploadEvt (file folder : String) (outcome : UpRes)
  | dbDeleteEvt
deriving DecidableEq, Repr

/-- Route-level outcome of `deleteFileFromGCS(url)` (before the `.catch`
that swallows it). -/
def delOutcome (g : StorageModel) (url : String) : PromiseU :=
  (deleteFileFromGCS g (some url)).1

/-- Base-image phase of the PUT handler: a new file first deletes the old
remote object (best effort), then uploads the replacement; otherwise an
explicit clear sentinel deletes the old object and `$set`s `null`. -/
def baseImagePhase (g : StorageModel) (p : Product) (req : UpdateReq) (u : UpdateData) :
    Except ErrResp UpdateData × List Event :=
  match req.baseImage with
  | some f =>
    let delEvs :=
      if optTruthy p.baseImageURL && g.isGCSInitialized then
        [Event.gcsDeleteEvt (p.baseImageURL.getD "") (delOutcome g (p.baseImageURL.getD ""))]
      else []
    let upRes := g.uploadResult f baseFolder
    let evs := delEvs ++ [Event.gcsUploadEvt f baseFolder upRes]
    match upRes with
    | .errU e => (.error (.serverError e), evs)
    | .okU url => (.ok { u with baseImageURL := some (some url) }, evs)
  | none =>
    match req.baseImageURL with
    | some v =>
      if v = .jnull || v = .jstr "" || v = .jstr "null" then
        let delEvs :=
          if optTruthy p.baseImageURL && g.isGCSInitialized then
            [Event.gcsDeleteEvt (p.baseImageURL.getD "") (delOutcome g (p.baseImageURL.getD ""))]
          else []
        (.ok { u with baseImageURL := some none }, delEvs)
      else (.ok u, [])
    | none => (.ok u, [])

/-- Additional-images phase of the PUT handler: new files replace the
whole list (old objects deleted best-effort first, `allSettled`); with no
files, an array body value replaces the list after trim/filter, and the
clear sentinels `''`/`null` delete the old objects and `$set` `[]`. -/
def addImagesPhase (g : StorageModel) (p : Product) (req : UpdateReq) (u : UpdateData) :
    Except ErrResp UpdateData × List Event :=
  match req.additionalImages with
  | [] =>
    match req.additionalImageURLs with
    | some (.aarr l) =>
      let cleaned := (l.map jsTrim).filter (fun s => s ≠ "" && s ≠ "null")
      (.ok { u with additionalImageURLs := some cleaned }, [])
    | some v =>
      if v = .anull || v = .astr "" then
        let delEvs :=
          if p.additionalImageURLs ≠ [] && g.isGCSInitialized then
            p.additionalImageURLs.map (fun url => Event.gcsDeleteEvt url (delOutcome g url))
          else []
        (.ok { u with additionalImageURLs := some [] }, delEvs)
      else (.ok u, [])
    | none => (.ok u, [])
  | fs =>
    let delEvs :=
      if p.additionalImageURLs ≠ [] && g.isGCSInitialized then
        p.additionalImageURLs.map (fun url => Event.gcsDeleteEvt url (delOutcome g url))
      else []
    let upEvs := fs.map (fun f => Event.gcsUploadEvt f addFolder (g.uploadResult f addFolder))
    match collectUploads g addFolder fs with
    | .error e => (.error (.serverError e), delEvs ++ upEvs)
    | .ok urls => (.ok { u with additionalImageURLs := some urls }, delEvs ++ upEvs)

/-- `runValidators: true` on the `$set` paths: each path present in the
update is validated against the schema, after its setters. -/
def validUpdate (u : UpdateData) : Bool :=
  (match u.name with | some s => jsTrim s ≠ "" | none => true) &&
  (match u.description with | some s => jsTrim s ≠ "" | none => true) &&
  (match u.productType with
    | some t => jsToLower (jsTrim t) ≠ "" && productTypeEnum.contains (jsToLower (jsTrim t))
    | none => true) &&
  (match u.gstRate with | some v => v.ge0 && v.le1 | none => true) &&
  (match u.dimensions with
    | some ds => ds.length ≠ 0 && (ds.map trimDim).all dimSchemaOk
    | none => true)

/-- Apply a validated `$set` to the stored document: setters run on the
incoming values, absent paths keep their stored value, and the
`timestamps` option refreshes `updatedAt`. -/
def applyUpdate (now : ℕ) (p : Product) (u : UpdateData) : Product :=
  { name := (u.name.map jsTrim).getD p.name
    description := (u.description.map jsTrim).getD p.description
    productType := (u.productType.map (fun s => jsToLower (jsTrim s))).getD p.productType
    baseImageURL := (u.baseImageURL.map (Option.map jsTrim)).getD p.baseImageURL
    additionalImageURLs := (u.additionalImageURLs.map (List.map jsTrim)).getD p.additionalImageURLs
    dimensions := (u.dimensions.map (List.map trimDim)).getD p.dimensions
    gstRate := u.gstRate.getD p.gstRate
    isActive := u.isActive.getD p.isActive
    createdAt := p.createdAt
    updatedAt := now }

/-- `Product.findByIdAndUpdate(id, { $set: updateData }, { new: true, runValidators: true })`
on a document known to exist. -/
def findByIdAndUpdate (now : ℕ) (p : Product) (u : UpdateData) : Except String Product :=
  if validUpdate u then .ok (applyUpdate now p u) else .error "Validation Error"

/-- Tail of the PUT handler once the document has been fetched: the two
image phases with their storage side effects, the no-update-data 400, and
the final validated `$set`. -/
def updateProductFound (g : StorageModel) (now : ℕ) (p : Product) (req : UpdateReq)
    (u0 : UpdateData) : Except ErrResp Product × List Event :=
  match baseImagePhase g p req u0 with
  | (.error e, evs1) => (.error e, evs1)
  | (.ok u1, evs1) =>
    match addImagesPhase g p req u1 with
    | (.error e, evs2) => (.error e, evs1 ++ evs2)
    | (.ok u2, evs2) =>
      if u2.isEmpty && (req.baseImage.isNone && req.additionalImages = []) then
        (.error (.badRequest "No update data provided."), evs1 ++ evs2)
      else
        match findByIdAndUpdate now p u2 with
        | .error m => (.error (.badRequest m), evs1 ++ evs2)
        | .ok q => (.ok q, evs1 ++ evs2)

/-- The update handler (`router.put('/:id')`): 503 when files are present
but GCS is uninitialised; `updateData` construction (with its 400s); 404
when the id does not resolve; then the fetched-document tail. -/
def updateProduct (g : StorageModel) (now : ℕ) (existing : Option Product) (req : UpdateReq) :
    Except ErrResp Product × List Event :=
  if (req.baseImage.isSome || req.additionalImages ≠ []) && ¬ g.isGCSInitialized then
    (.error (.unavailable "Image Storage Service (GCS) is not properly initialized on the server."), [])
  else
    match buildTextUpdate req with
    | .error e => (.error e, [])
    | .ok u0 =>
      match existing with
      | none => (.error (.notFoundE "Product not found"), [])
      | some p => updateProductFound g now p req u0

/-- The delete handler (`router.delete('/:id')`): 404 when absent; when
GCS is initialised, fan out best-effort deletes for the base image and
every additional image (`Promise.allSettled`, failures only logged);
then, unconditionally, delete the document from the repository. -/
def deleteProduct (g : StorageModel) (existing : Option Product) :
    Except ErrResp Unit × List Event :=
  match existing with
  | none => (.error (.notFoundE "Product not found"), [])
  | some p =>
    let imgEvs :=
      if g.isGCSInitialized then
        (if optTruthy p.baseImageURL then
          [Event.gcsDeleteEvt (p.baseImageURL.getD "") (delOutcome g (p.baseImageURL.getD ""))]
        else []) ++
        p.additionalImageURLs.map (fun url => Event.gcsDeleteEvt url (delOutcome g url))
      else []
    (.ok (), imgEvs ++ [Event.dbDeleteEvt])

/-- A fully initialised storage gateway whose remote calls all succeed. -/
def gInit : StorageModel :=
  { isGCSInitialized := true
    bucketName := "bkt"
    uploadResult := fun f folder => .okU ("https://storage.googleapis.com/bkt/" ++ folder ++ f)
    rawDelete := fun _ => .success }

/-- An uninitialised gateway (startup failed): uploads and deletes reject. -/
def gNoGcs : StorageModel :=
  { isGCSInitialized := false
    bucketName := ""
    uploadResult := fun _ _ => .errU "GCS Not Initialized"
    rawDelete := fun _ => .failure "GCS Not Initialized" }

/-- An initialised gateway whose remote deletes all fail. -/
def gFailDel : StorageModel :=
  { gInit with rawDelete := fun _ => .failure "delete failed" }

/-- A submitted field that is present and non-blank after trimming. -/
def presentNonBlank : Option String → Bool
  | some s => jsTrim s ≠ ""
  | none => false

/-- A partial dimension row: exactly one of the two fields is present and
non-blank after trimming. -/
def partialRow (r : RawDim) : Bool :=
  Bool.xor (presentNonBlank r.dimensionName) (presentNonBlank r.basePrice)

/-- Is this event a storage delete of the given URL? -/
def isDeleteOf (e : Event) (url : String) : Bool :=
  match e with
  | .gcsDeleteEvt u _ => u = url
  | _ => false

/-- Is this event a successfully stored base-image upload? -/
def isOkBaseUpload (e : Event) : Bool :=
  match e with
  | .gcsUploadEvt _ folder (.okU _) => folder = baseFolder
  | _ => false

/-- Within a trace, every delete of `old` occurs only after some base
upload has already been confirmed stored (the ordering the spec demands
for a base-image replacement). -/
def deleteOnlyAfterStored (tr : List Event) (old : String) : Bool :=
  (List.range tr.length).all fun i =>
    !(isDeleteOf (tr.getD i .dbDeleteEvt) old) ||
      (List.range i).any fun j => isOkBaseUpload (tr.getD j .dbDeleteEvt)

/-- Create request whose dimensions list holds one complete row and one
partial row (name present, price blank). -/
def reqPartialDim : CreateReq :=
  { name := some "Pin A"
    description := some "Steel wire pin"
    productTypeSelect := some "wire-pin"
    newProductType := none
    dimensions := some [⟨some "2mm", some "10"⟩, ⟨some "4mm", some ""⟩]
    gstRate := none
    isActive := none
    baseImage := none
    additionalImages := [] }

/-- The product the partial-row request creates: the partial row is gone. -/
def prodPartialDim : Product :=
  { name := "Pin A"
    description := "Steel wire pin"
    productType := "wire-pin"
    baseImageURL := none
    additionalImageURLs := []
    dimensions := [⟨"2mm", .fin 10⟩]
    gstRate := .fin (mkRat 12 100)
    isActive := false
    createdAt := 0
    updatedAt := 0 }

/-- Create request selecting `other` with free text outside the enum. -/
def reqFreeType : CreateReq :=
  { reqPartialDim with
      productTypeSelect := some "other"
      newProductType := some "Titanium Clamp"
      dimensions := some [⟨some "2mm", some "10"⟩] }

/-- Valid create request that omits `isActive` entirely. -/
def reqNoActive : CreateReq :=
  { reqPartialDim with dimensions := some [⟨some "2mm", some "10"⟩] }

/-- The product `reqNoActive` creates. -/
def prodNoActive : Product := prodPartialDim

/-- Create request selecting `other` with free text whose slug is the
enum value `wire-pin`. -/
def reqOtherOk : CreateReq :=
  { reqNoActive with
      productTypeSelect := some "other"
      newProductType := some " Wire  Pin " }

/-- Valid create request submitting the explicit `gstRate` string `"0"`. -/
def reqGstZero : CreateReq :=
  { reqNoActive with gstRate := some "0" }

/-- A stored product holding a base image inside the configured bucket. -/
def pStored : Product :=
  { name := "Pin A"
    description := "d"
    productType := "wire-pin"
    baseImageURL := some "https://storage.googleapis.com/bkt/gamma_ortho_products/base_images/old.jpg"
    additionalImageURLs := []
    dimensions := [⟨"2mm", .fin 10⟩]
    gstRate := .fin (mkRat 12 100)
    isActive := true
    createdAt := 0
    updatedAt := 0 }

/-- The stored base-image URL of `pStored`. -/
def oldBaseUrl : String :=
  "https://storage.googleapis.com/bkt/gamma_ortho_products/base_images/old.jpg"

/-- Update request carrying only a replacement base-image file. -/
def reqNewBase : UpdateReq :=
  { name := none, description := none, productTypeSelect := none, newProductType := none
    gstRate := none, isActive := none, dimensions := none, baseImageURL := none
    additionalImageURLs := none, baseImage := some "new.jpg", additionalImages := [] }

/-- Update request whose body is exactly `{isActive: 'false'}`. -/
def reqOnlyInactive : UpdateReq :=
  { name := none, description := none, productTypeSelect := none, newProductType := none
    gstRate := none, isActive := some "false", dimensions := none, baseImageURL := none
    additionalImageURLs := none, baseImage := none, additionalImages := [] }

/-! ### Inversion lemmas -/
theorem saveProduct_ok_inv {now : ℕ} {nd : NewProductData} {p : Product}
    (h : saveProduct now nd = .ok p) : saveOk nd = true ∧ p = assembleSaved now nd := by
  unfold saveProduct at h
  by_cases hs : saveOk nd
  · rw [if_pos hs] at h
    exact ⟨hs, ((Except.ok.injEq _ _).mp h).symm⟩
  · rw [if_neg hs] at h
    simp at h

theorem createProduct_ok_inv {g : StorageModel} {now : ℕ} {req : CreateReq} {p : Product}
    (h : createProduct g now req = .ok p) :
    ∃ fpt burl aurls,
      resolveProductType req.productTypeSelect req.newProductType = .ok fpt ∧
      parseDimensions req.dimensions ≠ [] ∧
      saveProduct now (newProductDataOf req fpt burl aurls) = .ok p := by
  unfold createProduct at h
  split at h
  · simp at h
  · split at h
    · simp at h
    · split at h
      · simp at h
      · next fpt heq =>
        split at h
        · simp at h
        · next hlen =>
          split at h
          · simp at h
          · next burl aurls hup =>
            split at h
            · simp at h
            · next q hsave =>
              refine ⟨fpt, burl, aurls, heq, fun hnil => hlen (by simp [hnil]), ?_⟩
              rw [hsave]
              simpa using h


theorem findByIdAndUpdate_ok_inv {now : ℕ} {p : Product} {u : UpdateData} {r : Product}
    (h : findByIdAndUpdate now p u = .ok r) :
    validUpdate u = true ∧ r = applyUpdate now p u := by
  unfold findByIdAndUpdate at h
  by_cases hv : validUpdate u
  · rw [if_pos hv] at h
    exact ⟨hv, ((Except.ok.injEq _ _).mp h).symm⟩
  · rw [if_neg hv] at h
    simp at h

theorem updateProductFound_ok_inv {g : StorageModel} {now : ℕ} {p : Product} {req : UpdateReq}
    {u0 : UpdateData} {r : Product} (h : (updateProductFound g now p req u0).1 = .ok r) :
    ∃ u, validUpdate u = true ∧ r = applyUpdate now p u := by
  unfold updateProductFound at h
  split at h
  · simp at h
  · rename_i u1 evs1 hbase
    split at h
    · simp at h
    · rename_i u2 evs2 hadd
      split at h
      · simp at h
      · split at h
        · simp at h
        · rename_i q hfind
          obtain ⟨hv, hr⟩ := findByIdAndUpdate_ok_inv hfind
          refine ⟨u2, hv, ?_⟩
          simp at h
          rw [← h, hr]

theorem updateProduct_ok_inv {g : StorageModel} {now : ℕ} {p : Product} {req : UpdateReq}
    {r : Product} (h : (updateProduct g now (some p) req).1 = .ok r) :
    ∃ u, validUpdate u = true ∧ r = applyUpdate now p u := by
  unfold updateProduct at h
  split at h
  · simp at h
  · split at h
    · simp at h
    · exact updateProductFound_ok_inv h

/-! ### Claim theorems -/
theorem saveOk_extract {nd : NewProductData} (h : saveOk nd = true) :
    productTypeEnum.contains (jsToLower (jsTrim nd.productType)) = true ∧
    (nd.dimensions.map trimDim) ≠ [] ∧
    (nd.dimensions.map trimDim).all dimSchemaOk = true ∧
    nd.gstRate.ge0 = true ∧ nd.gstRate.le1 = true := by
  unfold saveOk at h
  simp only [Bool.and_eq_true, decide_eq_true_eq, ne_eq] at h
  obtain ⟨⟨⟨⟨⟨⟨h1, h2⟩, h3⟩, h4⟩, h5⟩, h6⟩, h7, h8⟩ := h
  refine ⟨h4, ?_, h6, h7, h8⟩
  intro hnil
  exact h5 (by simp [hnil])

/-- C5: for any input dimensions list, the create path either fails with
an error or stores a product whose dimensions list has length ≥ 1 and
whose every entry has a non-empty (stored-trimmed) `dimensionName` and a
`basePrice ≥ 0`; it never continues with a length-0 list silently. -/
theorem create_dimension_totality (g : StorageModel) (now : ℕ) (req : CreateReq) :
    (∃ e, createProduct g now req = .error e) ∨
    (∃ p, createProduct g now req = .ok p ∧ 1 ≤ p.dimensions.length ∧
      ∀ d ∈ p.dimensions, d.dimensionName ≠ "" ∧ d.basePrice.ge0 = true) := by
  cases hc : createProduct g now req with
  | error e => exact .inl ⟨e, rfl⟩
  | ok p =>
    obtain ⟨fpt, burl, aurls, _hres, _hne, hsave⟩ := createProduct_ok_inv hc
    obtain ⟨hok, hp⟩ := saveProduct_ok_inv hsave
    obtain ⟨_, hlen, hall, _, _⟩ := saveOk_extract hok
    have hdims : p.dimensions = ((parseDimensions req.dimensions).map trimDim) := by
      rw [hp]; rfl
    refine .inr ⟨p, rfl, ?_, ?_⟩
    · rw [hdims, List.length_map]
      have hpos : 0 < (parseDimensions req.dimensions).length :=
        List.length_pos.mpr (by simpa [newProductDataOf] using hlen)
      exact hpos
    · intro d hd
      rw [hdims] at hd
      have hda := List.all_eq_true.mp (by simpa [newProductDataOf] using hall) d hd
      simpa [dimSchemaOk, Bool.and_eq_true, decide_eq_true_eq] using hda

/-- C2 (counterexample): the create request selecting `other` with free
text `"Titanium Clamp"` does not persist `productType = "titanium-clamp"`;
the schema enum rejects it and the whole request fails with a 400. -/
theorem freeText_type_rejected_cx :
    slugify "Titanium Clamp" = "titanium-clamp" ∧
    createProduct gInit 0 reqFreeType =
      .error (.badRequest "titanium-clamp is not a supported product type.") := by
  decide

/-- C2 (amended): the `productType` enum of the schema is enforced at
persistence — every successfully created product has a `productType`
among the six enum values, so a free-text `other` slug outside the enum
is never stored. -/
theorem created_productType_in_enum (g : StorageModel) (now : ℕ) (req : CreateReq)
    (p : Product) (h : createProduct g now req = .ok p) :
    productTypeEnum.contains p.productType = true := by
  obtain ⟨fpt, burl, aurls, _hres, _hne, hsave⟩ := createProduct_ok_inv h
  obtain ⟨hok, hp⟩ := saveProduct_ok_inv hsave
  obtain ⟨henum, _, _, _, _⟩ := saveOk_extract hok
  rw [hp]
  exact henum

/-- C2 witness: a successful `other` free-text create whose slug happens
to be the enum value `wire-pin`. -/
theorem created_productType_in_enum_witness :
    ∃ p, createProduct gInit 0 reqOtherOk = .ok p ∧
      productTypeEnum.contains p.productType = true := by
  refine ⟨prodNoActive, by decide, ?_⟩
  exact created_productType_in_enum gInit 0 reqOtherOk prodNoActive (by decide)

/-- C3 (counterexample): a create request omitting `isActive` stores
`isActive = false`, not `true`. -/
theorem create_omitted_isActive_cx :
    reqNoActive.isActive = none ∧
    createProduct gInit 0 reqNoActive = .ok prodNoActive ∧
    prodNoActive.isActive = false := by
  decide

/-- C3 (amended): the create route coerces `isActive` with
`req.body.isActive === 'true'` before the schema sees the document, so
the schema default `true` never applies — a request omitting `isActive`
stores `isActive = false`. -/
theorem create_omitted_isActive_false (g : StorageModel) (now : ℕ) (req : CreateReq)
    (p : Product) (hnone : req.isActive = none) (h : createProduct g now req = .ok p) :
    p.isActive = false := by
  obtain ⟨fpt, burl, aurls, _hres, _hne, hsave⟩ := createProduct_ok_inv h
  obtain ⟨_hok, hp⟩ := saveProduct_ok_inv hsave
  rw [hp]
  simp [assembleSaved, newProductDataOf, hnone]

/-- C3 witness. -/
theorem create_omitted_isActive_false_witness :
    prodNoActive.isActive = false :=
  create_omitted_isActive_false gInit 0 reqNoActive prodNoActive (by decide) (by decide)

/-- C10: on create, the stored `gstRate` is `parseFloat(req.body.gstRate)`
exactly when that value is truthy (a nonzero number, NaN and 0 being
falsy); when the field is absent, unparsable or the explicit string
`"0"`, the stored rate is the fallback `0.12`; in particular a stored
product never has `gstRate = 0`. -/
theorem create_gstRate_fallback (g : StorageModel) (now : ℕ) (req : CreateReq)
    (p : Product) (h : createProduct g now req = .ok p) :
    p.gstRate = (if (parseFloatOpt req.gstRate).truthy then parseFloatOpt req.gstRate
                 else .fin (mkRat 12 100)) ∧
    ((req.gstRate = none ∨ parseFloatOpt req.gstRate = .nan ∨ parseFloatOpt req.gstRate = .fin 0) →
      p.gstRate = .fin (mkRat 12 100)) ∧
    p.gstRate ≠ .fin 0 ∧
    (∀ q : ℚ, q ≠ 0 → parseFloatOpt req.gstRate = .fin q → p.gstRate = .fin q) := by
  obtain ⟨fpt, burl, aurls, _hres, _hne, hsave⟩ := createProduct_ok_inv h
  obtain ⟨_hok, hp⟩ := saveProduct_ok_inv hsave
  have hg : p.gstRate = (if (parseFloatOpt req.gstRate).truthy then parseFloatOpt req.gstRate
      else .fin (mkRat 12 100)) := by
    rw [hp]; rfl
  refine ⟨hg, ?_, ?_, ?_⟩
  · rintro (h0 | h0 | h0)
    · rw [hg, h0]
      simp [parseFloatOpt, JSFloat.truthy]
    · rw [hg, h0]
      simp [JSFloat.truthy]
    · rw [hg, h0]
      simp [JSFloat.truthy]
  · rw [hg]
    split
    · next ht =>
      intro hc
      rw [hc] at ht
      simp [JSFloat.truthy] at ht
    · next ht =>
      intro hc
      have : (mkRat 12 100) = 0 := by injection hc
      simp at this
  · intro q hq hpq
    rw [hg, hpq]
    simp [JSFloat.truthy, hq]

/-- C10 witness: submitting the explicit string `"0"` yields a stored
rate of `0.12`. -/
theorem create_gstRate_fallback_witness :
    ∃ p, createProduct gInit 0 reqGstZero = .ok p ∧ p.gstRate = .fin (mkRat 12 100) := by
  refine ⟨prodNoActive, by decide, ?_⟩
  exact (create_gstRate_fallback gInit 0 reqGstZero prodNoActive (by decide)).2.1
    (.inr (.inr (by decide)))

/-- C1 (counterexample): a create request whose dimensions list contains
a partial row (name `"4mm"` present, price blank) does not fail — it
succeeds, and the partial row is silently dropped. -/
theorem partial_dimension_cx :
    partialRow ⟨some "4mm", some ""⟩ = true ∧
    createProduct gInit 0 reqPartialDim = .ok prodPartialDim ∧
    prodPartialDim.dimensions = [⟨"2mm", .fin 10⟩] := by
  decide

/-- C1 (amended): a partial dimension row (exactly one of name/price
present and non-blank) is silently skipped by the create parsing loop,
exactly like a fully blank row; the request fails only when no row at
all is complete and valid, and a successful create stores precisely the
complete rows. -/
theorem partial_dimension_skipped (g : StorageModel) (now : ℕ) (req : CreateReq)
    (l : List RawDim) (r : RawDim) (hl : req.dimensions = some l) (hr : r ∈ l)
    (hpart : partialRow r = true) :
    parseDimEntry r = none ∧
    (l.filterMap parseDimEntry = [] → ∀ p, createProduct g now req ≠ .ok p) ∧
    (∀ p, createProduct g now req = .ok p →
      p.dimensions = (l.filterMap parseDimEntry).map trimDim) := by
  refine ⟨?_, ?_, ?_⟩
  · rcases r with ⟨dn, dp⟩
    rcases dn with _ | s
    · simp [parseDimEntry]
    · rcases dp with _ | t
      · simp [parseDimEntry]
      · by_cases hs : jsTrim s = ""
        · simp [parseDimEntry, hs]
        · have ht : jsTrim t = "" := by
            by_contra htne
            simp [partialRow, presentNonBlank, hs, htne] at hpart
          simp [parseDimEntry, ht]
  · intro hnil p hok
    obtain ⟨fpt, burl, aurls, _hres, hne, _hsave⟩ := createProduct_ok_inv hok
    rw [hl] at hne
    simp [parseDimensions, hnil] at hne
  · intro p hok
    obtain ⟨fpt, burl, aurls, _hres, _hne, hsave⟩ := createProduct_ok_inv hok
    obtain ⟨_hok, hp⟩ := saveProduct_ok_inv hsave
    rw [hp]
    show (parseDimensions req.dimensions).map trimDim = _
    rw [hl]
    rfl

/-- C1 witness: the partial row of `reqPartialDim` is parsed to nothing
(skipped, not an error). -/
theorem partial_dimension_skipped_witness :
    parseDimEntry ⟨some "4mm", some ""⟩ = none :=
  (partial_dimension_skipped gInit 0 reqPartialDim
    [⟨some "2mm", some "10"⟩, ⟨some "4mm", some ""⟩] ⟨some "4mm", some ""⟩
    (by decide) (by decide) (by decide)).1

/-- C7: every persisted product keeps a dimensions list of length ≥ 1:
a create with zero valid rows is rejected, and an update that would
leave the stored list empty fails validation, so neither operation ever
stores a product with zero dimensions. -/
theorem dimensions_nonempty_invariant :
    (∀ (g : StorageModel) (now : ℕ) (req : CreateReq) (p : Product),
      createProduct g now req = .ok p → p.dimensions ≠ []) ∧
    (∀ (g : StorageModel) (now : ℕ) (q : Product) (req : UpdateReq) (r : Product),
      q.dimensions ≠ [] → (updateProduct g now (some q) req).1 = .ok r →
      r.dimensions ≠ []) := by
  constructor
  · intro g now req p h
    obtain ⟨fpt, burl, aurls, _hres, _hne, hsave⟩ := createProduct_ok_inv h
    obtain ⟨hok, hp⟩ := saveProduct_ok_inv hsave
    obtain ⟨_, hlen, _, _, _⟩ := saveOk_extract hok
    rw [hp]
    exact hlen
  · intro g now q req r hq h
    obtain ⟨u, hv, hr⟩ := updateProduct_ok_inv h
    subst hr
    show (u.dimensions.map (List.map trimDim)).getD q.dimensions ≠ []
    cases hud : u.dimensions with
    | none => simpa using hq
    | some ds =>
      unfold validUpdate at hv
      rw [hud] at hv
      simp only [Bool.and_eq_true, decide_eq_true_eq] at hv
      have hlen : ds.length ≠ 0 := hv.2.1
      simp only [Option.map_some', Option.getD_some]
      intro hnil
      apply hlen
      simpa using congrArg List.length hnil

/-- C9: an update whose body is exactly `{isActive: 'false'}` persists a
product identical to the stored one in name, description, productType,
baseImageURL, additionalImageURLs, dimensions, gstRate and createdAt,
changing only `isActive` (and the repository-maintained `updatedAt`),
and performs no storage call at all. -/
theorem update_only_isActive_frame (g : StorageModel) (now : ℕ) (p : Product) :
    updateProduct g now (some p) reqOnlyInactive =
      (.ok { p with isActive := false, updatedAt := now }, []) := by
  have hbt : buildTextUpdate reqOnlyInactive = .ok { isActive := some false } := by decide
  unfold updateProduct
  rw [hbt]
  simp only [reqOnlyInactive]
  show updateProductFound g now p reqOnlyInactive { isActive := some false } = _
  unfold updateProductFound baseImagePhase addImagesPhase
  simp [reqOnlyInactive, findByIdAndUpdate, validUpdate, applyUpdate, UpdateData.isEmpty,
    productTypeEnum]

/-- C8: a URL that does not start with the configured bucket public-URL
base `https://storage.googleapis.com/{bucket}/` makes `deleteFileFromGCS`
resolve successfully without issuing any remote delete call. -/
theorem delete_not_ours_noop (g : StorageModel) (u : String)
    (hg : g.isGCSInitialized = true) (hpre : jsStartsWith u (gcsUrlBase g) = false) :
    deleteFileFromGCS g (some u) = (.resolvedU, []) := by
  unfold deleteFileFromGCS
  rw [hg]
  by_cases hu : u = ""
  · simp [hu]
  · simp [hu, hpre]

/-- C8 witness: an `example.com` URL is a successful no-op. -/
theorem delete_not_ours_noop_witness :
    deleteFileFromGCS gInit (some "https://example.com/pic.png") = (.resolvedU, []) :=
  delete_not_ours_noop gInit "https://example.com/pic.png" (by decide) (by decide)

/-- C6: deleting an existing product always removes the document: for
every storage gateway (including ones whose remote deletes all fail),
the handler ends with the repository delete, issued after all image
deletions have been awaited, and reports success; no image-delete
failure aborts it. -/
theorem delete_product_db_regardless (g : StorageModel) (p : Product) :
    ∃ evs, deleteProduct g (some p) = (.ok (), evs ++ [Event.dbDeleteEvt]) ∧
      Event.dbDeleteEvt ∉ evs := by
  unfold deleteProduct
  refine ⟨_, rfl, ?_⟩
  intro hmem
  by_cases hg : g.isGCSInitialized
  · simp only [hg, if_true] at hmem
    rcases List.mem_append.mp hmem with h1 | h2
    · by_cases hb : optTruthy p.baseImageURL <;> simp [hb] at h1
    · obtain ⟨url, -, habs⟩ := List.mem_map.mp h2
      simp at habs
  · simp [hg] at hmem

/-- C7 witness: a concrete create and a concrete update, both landing on
non-empty dimension lists. -/
theorem dimensions_nonempty_invariant_witness :
    prodNoActive.dimensions ≠ [] ∧
    ({ pStored with isActive := false, updatedAt := 7 } : Product).dimensions ≠ [] := by
  constructor
  · exact dimensions_nonempty_invariant.1 gInit 0 reqNoActive prodNoActive (by decide)
  · exact dimensions_nonempty_invariant.2 gInit 7 pStored reqOnlyInactive
      { pStored with isActive := false, updatedAt := 7 } (by decide) (by decide)

theorem baseImagePhase_trace (g : StorageModel) (p : Product) (req : UpdateReq)
    (u : UpdateData) (f old : String) (hg : g.isGCSInitialized = true)
    (hf : req.baseImage = some f) (hold : p.baseImageURL = some old) (hne : old ≠ "") :
    (baseImagePhase g p req u).2 =
      [Event.gcsDeleteEvt old (delOutcome g old),
       Event.gcsUploadEvt f baseFolder (g.uploadResult f baseFolder)] := by
  unfold baseImagePhase
  rw [hf]
  cases hup : g.uploadResult f baseFolder with
  | errU e => simp [hold, optTruthy, hne, hg, hup]
  | okU url => simp [hold, optTruthy, hne, hg, hup]

/-- C4 (amended): when an update carries a new base image file for an
existing product with a prior `baseImageURL`, the handler deletes the
old remote object FIRST (best effort, outcome swallowed) and only then
attempts the replacement upload — the trace always begins with the
delete of the old URL followed by the upload call. -/
theorem update_base_image_delete_first (g : StorageModel) (now : ℕ) (p : Product)
    (req : UpdateReq) (u0 : UpdateData) (f old : String)
    (hg : g.isGCSInitialized = true) (hf : req.baseImage = some f)
    (hold : p.baseImageURL = some old) (hne : old ≠ "")
    (hbt : buildTextUpdate req = .ok u0) :
    ∃ rest, (updateProduct g now (some p) req).2 =
      Event.gcsDeleteEvt old (delOutcome g old) ::
      Event.gcsUploadEvt f baseFolder (g.uploadResult f baseFolder) :: rest := by
  have htrace := baseImagePhase_trace g p req u0 f old hg hf hold hne
  unfold updateProduct
  rw [if_neg (by simp [hg])]
  simp only [hbt]
  unfold updateProductFound
  rcases hb : baseImagePhase g p req u0 with ⟨res, evs1⟩
  rw [hb] at htrace
  simp only at htrace
  cases res with
  | error e => exact ⟨[], by simp [htrace]⟩
  | ok u1 =>
    dsimp only
    rcases ha : addImagesPhase g p req u1 with ⟨res2, evs2⟩
    cases res2 with
    | error e =>
      dsimp only
      exact ⟨evs2, by simp [htrace]⟩
    | ok u2 =>
      dsimp only
      split
      · exact ⟨evs2, by simp [htrace]⟩
      · cases hfind : findByIdAndUpdate now p u2 with
        | error m => exact ⟨evs2, by simp [htrace, hfind]⟩
        | ok q => exact ⟨evs2, by simp [htrace, hfind]⟩

/-- C4 (counterexample): on a concrete update with a new base image, the
trace is delete-then-upload, violating "the old object is deleted only
after the new object is confirmed stored". -/
theorem update_base_image_delete_order_cx :
    (updateProduct gInit 5 (some pStored) reqNewBase).2 =
      [Event.gcsDeleteEvt oldBaseUrl .resolvedU,
       Event.gcsUploadEvt "new.jpg" baseFolder
         (.okU "https://storage.googleapis.com/bkt/gamma_ortho_products/base_images/new.jpg")] ∧
    deleteOnlyAfterStored (updateProduct gInit 5 (some pStored) reqNewBase).2 oldBaseUrl
      = false := by
  decide

/-- C4 witness. -/
theorem update_base_image_delete_first_witness :
    ∃ rest, (updateProduct gInit 5 (some pStored) reqNewBase).2 =
      Event.gcsDeleteEvt oldBaseUrl (delOutcome gInit oldBaseUrl) ::
      Event.gcsUploadEvt "new.jpg" baseFolder (gInit.uploadResult "new.jpg" baseFolder) ::
        rest :=
  update_base_image_delete_first gInit 5 pStored reqNewBase {} "new.jpg" oldBaseUrl
    (by decide) (by decide) (by decide) (by decide) (by decide)
